import Mathlib

/-!
Verification of the assistant turn-orchestration core of the
`streamlit-mcp-app` repository.

The development shallowly embeds the Python sources:

* `src/app/core/models.py`   — `AppSettings.think_argument`, `MCPServer`,
  `ToolBinding`;
* `src/app/mcp/client.py`    — `fetch_server_tools`, `refresh_tool_bindings`,
  `call_tool`;
* `src/app/pages/0_assistant.py` — `_parse_arguments`, `_format_tool_result`,
  `_handle_tool_calls`, `_consume_stream` (its delta aggregation),
  `_run_completion`, `_run_assistant_turn`.

Python values that cross the JSON boundary are modelled by the inductive
`PyVal`.  External effects (HTTP fetches, the Ollama transport, `json.loads`
and `json.dumps` from the standard library) are passed in as explicit
function parameters, so every definition stays executable while the embedded
control flow is translated from the source verbatim.

Python's `str.strip`, `str.lower` and `str.upper` are modelled by the
structurally recursive `py_strip`, `py_lower`, `py_upper` below (Lean's
built-in `String.trim`/`String.toLower` are defined by well-founded recursion
and do not reduce inside `decide`/`rfl`).
-/

/-! ## Python-level values -/

/-- A Python value as it appears on the JSON boundary of the app:
`None`, `bool`, `int`, `str`, `list`, `dict` (with string keys). -/
inductive PyVal where
  | none
  | bool (b : Bool)
  | int (n : Int)
  | str (s : String)
  | list (items : List PyVal)
  | dict (entries : List (String × PyVal))

/-- Python truthiness for the values modelled by `PyVal`
(`None`, `False`, `0`, `""`, `[]`, `{}` are falsy). -/
def PyVal.truthy : PyVal → Bool
  | .none => false
  | .bool b => b
  | .int n => n != 0
  | .str s => s ≠ ""
  | .list items => !items.isEmpty
  | .dict entries => !entries.isEmpty

/-- Characters treated as whitespace by Python's `str.strip()`. -/
def py_isspace (c : Char) : Bool :=
  c == ' ' || c == '\t' || c == '\n' || c == '\r' || c == '\x0b' || c == '\x0c'

/-- Python's `str.strip()` (no arguments): drop leading and trailing
whitespace. -/
def py_strip (s : String) : String :=
  ⟨((s.data.dropWhile py_isspace).reverse.dropWhile py_isspace).reverse⟩

/-- Python's `str.lower()` (ASCII case, which is all the app compares). -/
def py_lower (s : String) : String := ⟨s.data.map Char.toLower⟩

/-- Python's `str.upper()` (ASCII case). -/
def py_upper (s : String) : String := ⟨s.data.map Char.toUpper⟩

/-! ## `src/app/core/models.py` -/

/-- The type `Union[str, bool, None]` of the `thinking_level` field and of
the value returned by `AppSettings.think_argument`. -/
inductive StrBoolNone where
  | none
  | bool (b : Bool)
  | str (s : String)
deriving DecidableEq

/-- `AppSettings` (`src/app/core/models.py`): the fields consumed by the
assistant page.  `ollama_endpoint`/`ollama_model` are carried for
completeness; the orchestration claims depend on `thinking_level`,
`show_thoughts` and `enable_streaming`. -/
structure AppSettings where
  ollama_endpoint : String := "http://localhost:11434"
  ollama_model : String := "llama3"
  thinking_level : StrBoolNone := .none
  show_thoughts : Bool := false
  enable_streaming : Bool := true

/-- `AppSettings.think_argument` (`src/app/core/models.py`, lines 24-39):
the value sent as Ollama's `think` parameter; `.none` means the key is
omitted from the payload. -/
def AppSettings.think_argument (self : AppSettings) : StrBoolNone :=
  match self.thinking_level with
  | .none => .none
  | .bool b => .bool b
  | .str value =>
    let normalized := py_lower (py_strip value)
    if normalized = "" ∨ normalized ∈ ["none", "off", "disabled"] then .none
    else if normalized ∈ ["low", "medium", "high"] then .str normalized
    else if normalized ∈ ["true", "yes", "on"] then .bool true
    else .str normalized

/-- `MCPServer` (`src/app/core/models.py`): a tool-server record.  The
stored `url` is the post-validation value (trailing slash stripped), and
`base_url` is just `url`. -/
structure MCPServer where
  name : String
  url : String
  enabled : Bool := true
  description : Option String := Option.none

/-- `ToolBinding` (`src/app/core/models.py`): a resolved, invocable tool. -/
structure ToolBinding where
  name : String
  display_name : String
  server_name : String
  definition : PyVal
  endpoint : String
  method : String := "POST"

/-! ## `src/app/mcp/client.py` -/

/-- One entry of a server's `GET /tools` manifest: the four keys read by
`fetch_server_tools`.  `Option.none` models an absent key. -/
structure ToolEntry where
  name : Option String := Option.none
  description : String := ""
  parameters : Option PyVal := Option.none
  method : Option String := Option.none

/-- The outcome of the HTTP manifest fetch for one server: either the
decoded manifest array or the failure message carried by the caught
`httpx.HTTPError`. -/
inductive FetchOutcome where
  | success (manifest : List ToolEntry)
  | failure (cause : String)

/-- The default parameters schema `{"type": "object", "properties": {}}`. -/
def default_parameters : PyVal :=
  .dict [("type", .str "object"), ("properties", .dict [])]

/-- `entry.get("name") or "tool"`: Python's `or` falls back on `None`
and on the empty string. -/
def entry_display_name (entry : ToolEntry) : String :=
  match entry.name with
  | Option.some s => if s = "" then "tool" else s
  | Option.none => "tool"

/-- The binding built for one manifest `entry` of `server` inside the
loop of `fetch_server_tools` (`src/app/mcp/client.py`, lines 33-54). -/
def make_binding (server : MCPServer) (entry : ToolEntry) : ToolBinding :=
  let entry_name := entry_display_name entry
  let unique_name := server.name ++ "-" ++ entry_name
  { name := unique_name
    display_name := entry_name
    server_name := server.name
    definition := .dict
      [("type", .str "function"),
       ("function", .dict
         [("name", .str unique_name),
          ("description", .str entry.description),
          ("parameters",
            -- entry.get("parameters") or {"type": "object", "properties": {}}
            match entry.parameters with
            | Option.some v => if v.truthy then v else default_parameters
            | Option.none => default_parameters)])]
    endpoint := server.url ++ "/tools/" ++ entry_name
    method := py_upper ((entry.method).getD "POST") }

/-- `fetch_server_tools` (`src/app/mcp/client.py`, lines 22-55).  The HTTP
round trip is external: `world` says, for each server, whether the manifest
fetch succeeded and with what payload.  On failure the function raises
`MCPClientError(f"{server.name}: unable to fetch tools ({exc})")`, modelled
as the `Except.error` string. -/
def fetch_server_tools (world : MCPServer → FetchOutcome) (server : MCPServer) :
    Except String (List ToolBinding) :=
  match world server with
  | .failure cause =>
    .error (server.name ++ ": unable to fetch tools (" ++ cause ++ ")")
  | .success manifest => .ok (manifest.map (make_binding server))

/-- `refresh_tool_bindings` (`src/app/mcp/client.py`, lines 58-71): fetch
tools for all enabled servers, collecting per-server failures. -/
def refresh_tool_bindings (world : MCPServer → FetchOutcome) :
    List MCPServer → List ToolBinding × List String
  | [] => ([], [])
  | server :: rest =>
    if server.enabled then
      match fetch_server_tools world server with
      | .ok fetched =>
        let (bindings, errors) := refresh_tool_bindings world rest
        (fetched ++ bindings, errors)
      | .error exc =>
        let (bindings, errors) := refresh_tool_bindings world rest
        (bindings, exc :: errors)
    else
      refresh_tool_bindings world rest

/-- `call_tool` (`src/app/mcp/client.py`, lines 74-103).  The HTTP exchange
(GET with query params / POST with JSON body, status check, JSON-or-text
decoding of the response body) is external: `transport` returns the decoded
result or the `httpx.HTTPError` text, and `call_tool` wraps a failure into
`ToolInvocationError(f"{binding.name} failed: {exc}")`. -/
def call_tool (transport : ToolBinding → PyVal → Except String PyVal)
    (binding : ToolBinding) (arguments : PyVal) : Except String PyVal :=
  match transport binding arguments with
  | .ok result => .ok result
  | .error exc => .error (binding.name ++ " failed: " ++ exc)

/-! ## `src/app/pages/0_assistant.py` — data -/

/-- Status strings (`src/app/pages/0_assistant.py`, lines 29-33). -/
def STATUS_LOADING : String := "Loading..."

def STATUS_THINKING : String := "Thinking..."

def STATUS_PROCESSING : String := "Processing..."

def STATUS_THOUGHTS : String := "Thoughts..."

def STATUS_ERROR : String := "Error"

/-- One tool-call request inside an assistant message.  The page reads
`call.get("function") or {}`, then `function_data.get("name", "")` and
`function_data.get("arguments")`; the record stores those two values
(`arguments := .none` models an absent key). -/
structure ToolCall where
  function_name : String := ""
  arguments : PyVal := .none

/-- Message roles appearing in the session log. -/
inductive Role where
  | user
  | assistant
  | tool
deriving DecidableEq

/-- One entry of `st.session_state[STATE_MESSAGES]`.  Absent dict keys are
modelled by the default field values (`""` / `[]`), which is how the page
itself treats them (`message.get(...) or ...`). -/
structure Message where
  role : Role
  content : String := ""
  name : String := ""
  thinking : String := ""
  status : String := ""
  tool_calls : List ToolCall := []

/-- The `message` object carried by a chat response or by one streaming
event (`content` fragment, `thinking` fragment, `tool_calls` list); absent
keys are the defaults. -/
structure ChatMessage where
  content : String := ""
  thinking : String := ""
  tool_calls : List ToolCall := []

/-! ## `_parse_arguments` and `_format_tool_result` -/

/-- `_parse_arguments` (`src/app/pages/0_assistant.py`, lines 403-411).
`loads` is `json.loads` from the standard library, `Option.none` modelling a
raised `json.JSONDecodeError`. -/
def parse_arguments (loads : String → Option PyVal) (raw_args : PyVal) : PyVal :=
  match raw_args with
  | .dict entries => .dict entries
  | .str s =>
    match loads s with
    | Option.some decoded => decoded
    | Option.none => .dict [("value", .str s)]
  | _ => .dict []

/-- `_format_tool_result` (`src/app/pages/0_assistant.py`, lines 397-400).
`dumps` is `json.dumps(·, indent=2)`; the non-dict/list branch is Python's
`str(result)`. -/
def format_tool_result (dumps : PyVal → String) : PyVal → String
  | .dict entries => dumps (.dict entries)
  | .list items => dumps (.list items)
  | .str s => s
  | .bool b => if b then "True" else "False"
  | .int n => toString n
  | .none => "None"

/-! ## `_handle_tool_calls` -/

/-- The external collaborators of the tool-call handler: the session's
binding lookup map, the HTTP transport behind `call_tool`, and the two
`json` standard-library functions. -/
structure ToolEnv where
  lookup : String → Option ToolBinding
  transport : ToolBinding → PyVal → Except String PyVal
  loads : String → Option PyVal
  dumps : PyVal → String

/-- The session state touched by `_handle_tool_calls`: the message log and
the request status. -/
structure HandlerState where
  messages : List Message
  status : String

/-- The text of the unavailable-tool message
(`f"Tool `{tool_name}` is not available."`). -/
def tool_unavailable_text (tool_name : String) : String :=
  "Tool `" ++ tool_name ++ "` is not available."

/-- `_handle_tool_calls` (`src/app/pages/0_assistant.py`, lines 414-468):
process the calls in list order; an unresolved binding appends an
unavailability tool message and sets status `Error`; a resolved binding is
invoked after setting status `Processing...`, appending either the formatted
result or the `Tool invocation failed: ...` text (status `Error` in the
failure case).  Every call appends exactly one tool message before the next
call is examined. -/
def handle_tool_calls (env : ToolEnv) : List ToolCall → HandlerState → HandlerState
  | [], st => st
  | call :: rest, st =>
    let tool_name := call.function_name
    let arguments := parse_arguments env.loads call.arguments
    match env.lookup tool_name with
    | Option.none =>
      let error_text := tool_unavailable_text tool_name
      handle_tool_calls env rest
        { messages := st.messages ++ [{ role := .tool, name := tool_name, content := error_text }]
          status := STATUS_ERROR }
    | Option.some binding =>
      -- status is set to Processing... before the invocation
      match call_tool env.transport binding arguments with
      | .ok result =>
        handle_tool_calls env rest
          { messages := st.messages ++
              [{ role := .tool, name := binding.name
                 content := format_tool_result env.dumps result }]
            status := STATUS_PROCESSING }
      | .error exc =>
        handle_tool_calls env rest
          { messages := st.messages ++
              [{ role := .tool, name := binding.name
                 content := "Tool invocation failed: " ++ exc }]
            status := STATUS_ERROR }

/-- The single tool message `_handle_tool_calls` appends for one call —
the specification-side characterization used to state ordering and
error-isolation properties of the handler. -/
def tool_message_for (env : ToolEnv) (call : ToolCall) : Message :=
  match env.lookup call.function_name with
  | Option.none =>
    { role := .tool, name := call.function_name
      content := tool_unavailable_text call.function_name }
  | Option.some binding =>
    match call_tool env.transport binding (parse_arguments env.loads call.arguments) with
    | .ok result =>
      { role := .tool, name := binding.name
        content := format_tool_result env.dumps result }
    | .error exc =>
      { role := .tool, name := binding.name
        content := "Tool invocation failed: " ++ exc }

/-! ## `_consume_stream`, `_run_completion` -/

/-- The loop body of `_consume_stream` (`src/app/pages/0_assistant.py`,
lines 300-323) restricted to the aggregation state: concatenate a truthy
`content` fragment; concatenate a truthy `thinking` fragment when
`show_thoughts` is on; a truthy `tool_calls` list overwrites the previous
one. -/
def aggregate_step (show_thoughts : Bool) (acc : ChatMessage) (m : ChatMessage) :
    ChatMessage :=
  { content := if m.content = "" then acc.content else acc.content ++ m.content
    thinking :=
      if show_thoughts ∧ m.thinking ≠ "" then acc.thinking ++ m.thinking
      else acc.thinking
    tool_calls := if m.tool_calls.isEmpty then acc.tool_calls else m.tool_calls }

/-- The streamed-delta aggregation of `_consume_stream`: fold the loop body
over the events, starting from the empty assistant message. -/
def aggregate_stream (show_thoughts : Bool) (events : List ChatMessage) : ChatMessage :=
  events.foldl (aggregate_step show_thoughts) {}

/-- What the model backend does on one dispatch.  `blocking` is the
response `chat_completion` would return (or the `OllamaError` text);
`events` are the deltas `stream_chat` would yield, with `stream_error` the
`OllamaError` raised after them (if any). -/
structure ModelTurn where
  blocking : Except String ChatMessage := .error ""
  events : List ChatMessage := []
  stream_error : Option String := Option.none

/-- `_consume_stream` (`src/app/pages/0_assistant.py`, lines 284-346),
restricted to its observable outcome: on an `OllamaError` it returns `None`
with status `Error`; otherwise it returns the aggregated message, with
status `Processing...` if tool calls arrived and `Thoughts...` if not.
(The transient `Thinking...` update is always overwritten before the
function returns.) -/
def consume_stream (show_thoughts : Bool) (events : List ChatMessage)
    (stream_error : Option String) : Option ChatMessage × String :=
  match stream_error with
  | Option.some _ => (Option.none, STATUS_ERROR)
  | Option.none =>
    let aggregated := aggregate_stream show_thoughts events
    (Option.some aggregated,
      if aggregated.tool_calls.isEmpty then STATUS_THOUGHTS else STATUS_PROCESSING)

/-- `_run_completion` (`src/app/pages/0_assistant.py`, lines 349-394),
restricted to its observable outcome: `None` with status `Error` on an
`OllamaError`, otherwise the response message with status `Processing...`
if it carries tool calls and `Thoughts...` if not. -/
def run_completion : Except String ChatMessage → Option ChatMessage × String
  | .error _ => (Option.none, STATUS_ERROR)
  | .ok message =>
    (Option.some message,
      if message.tool_calls.isEmpty then STATUS_THOUGHTS else STATUS_PROCESSING)

/-! ## `_run_assistant_turn` -/

/-- The state threaded through the turn loop: the session message log, the
request status, and the number of model dispatches performed so far. -/
structure RunState where
  messages : List Message
  status : String
  dispatches : Nat

/-- One model dispatch of `_run_assistant_turn` (lines 479-486): the
streaming path when `settings.enable_streaming`, else the blocking path. -/
def dispatch_result (settings : AppSettings) (turn : ModelTurn) :
    Option ChatMessage × String :=
  if settings.enable_streaming then
    consume_stream settings.show_thoughts turn.events turn.stream_error
  else
    run_completion turn.blocking

/-- The `for iteration in range(max_iterations)` loop of
`_run_assistant_turn` (`src/app/pages/0_assistant.py`, lines 475-525),
with `fuel` the number of remaining iterations.  `oracle i` is the model
backend's behaviour on the `i`-th dispatch of the turn.  On a failed
dispatch the loop breaks with status `Error`; on a response without tool
calls it appends the assistant message and finishes with status
`Thoughts...`; otherwise it appends the assistant message, runs
`_handle_tool_calls`, patches the appended assistant message's `status`
field (line 519-520 mutates the dict already in the log), and loops. -/
def run_turn_loop (settings : AppSettings) (env : ToolEnv) (oracle : Nat → ModelTurn) :
    Nat → RunState → RunState
  | 0, st => st
  | fuel + 1, st =>
    -- _set_request_status(STATUS_LOADING) is transient: the dispatch
    -- overwrites it before any observation point.
    let dispatched := dispatch_result settings (oracle st.dispatches)
    let st' : RunState :=
      { messages := st.messages, status := dispatched.2, dispatches := st.dispatches + 1 }
    match dispatched.1 with
    | Option.none => st'
    | Option.some msg =>
      let assistant : Message :=
        { role := .assistant, content := msg.content, thinking := msg.thinking
          status := st'.status, tool_calls := msg.tool_calls }
      if msg.tool_calls.isEmpty then
        { st' with messages := st'.messages ++ [assistant], status := STATUS_THOUGHTS }
      else
        let idx := st'.messages.length
        let handled := handle_tool_calls env msg.tool_calls
          { messages := st'.messages ++ [assistant], status := STATUS_PROCESSING }
        run_turn_loop settings env oracle fuel
          { messages := handled.messages.set idx { assistant with status := handled.status }
            status := handled.status
            dispatches := st'.dispatches }

/-- The hard iteration bound of `_run_assistant_turn` (line 473). -/
def max_iterations : Nat := 3

/-- `_run_assistant_turn` (`src/app/pages/0_assistant.py`, lines 471-525):
run the turn loop with the hard bound of `max_iterations` dispatches. -/
def run_assistant_turn (settings : AppSettings) (env : ToolEnv)
    (oracle : Nat → ModelTurn) (st : RunState) : RunState :=
  run_turn_loop settings env oracle max_iterations st

/-! ## Concrete fixtures used by witnesses and counterexamples -/

/-- A resolved binding for a `calc` server's `add` tool. -/
def binding_add : ToolBinding :=
  { name := "calc-add", display_name := "add", server_name := "calc"
    definition := .dict [], endpoint := "http://calc/tools/add", method := "POST" }

/-- A `json.loads` stand-in that always fails to decode. -/
def loads_fail : String → Option PyVal := fun _ => Option.none

/-- A `json.loads` stand-in decoding the two non-object documents used in
the witnesses. -/
def loads_docs : String → Option PyVal := fun s =>
  if s = "5" then Option.some (.int 5)
  else if s = "[1,2]" then Option.some (.list [.int 1, .int 2])
  else Option.none

/-- A `json.dumps` stand-in. -/
def dumps_stub : PyVal → String := fun _ => "dumped"

/-- An environment whose only registered binding is `calc-add` and whose
transport succeeds with a small JSON object. -/
def env_calc : ToolEnv :=
  { lookup := fun n => if n = "calc-add" then Option.some binding_add else Option.none
    transport := fun _ _ => .ok (.dict [("result", .int 5)])
    loads := loads_fail
    dumps := dumps_stub }

/-- An environment that resolves every name to `calc-add` but whose
transport always fails. -/
def env_fail : ToolEnv :=
  { lookup := fun _ => Option.some binding_add
    transport := fun _ _ => .error "HTTP 500"
    loads := loads_fail
    dumps := dumps_stub }

/-- A call to a name absent from the registry. -/
def call_nope : ToolCall := { function_name := "nope" }

/-- The user message opening the test turn. -/
def msg_user : Message := { role := .user, content := "add 2 and 3" }

/-- The run state right after the user message was appended. -/
def st_user : RunState :=
  { messages := [msg_user], status := STATUS_THOUGHTS, dispatches := 0 }

/-- The empty handler state. -/
def hs_empty : HandlerState := { messages := [], status := STATUS_THOUGHTS }

/-- Settings with the blocking (non-streaming) path selected. -/
def settings_blocking : AppSettings := { enable_streaming := false }

/-- A backend that requests the unavailable tool `nope` on every dispatch
(blocking path). -/
def oracle_tools : Nat → ModelTurn := fun _ =>
  { blocking := .ok { content := "x", tool_calls := [call_nope] } }

/-- A backend whose stream raises an `OllamaError` after one delta. -/
def oracle_stream_err : Nat → ModelTurn := fun _ =>
  { events := [{ content := "par" }], stream_error := Option.some "boom" }

/-- A server `s` whose manifest lists the tool `t` twice. -/
def server_s : MCPServer := { name := "s", url := "http://s" }

/-- A manifest entry named `t`. -/
def entry_t : ToolEntry := { name := Option.some "t" }

/-- A world in which every server's fetch returns the duplicated
manifest `[t, t]`. -/
def world_dup : MCPServer → FetchOutcome := fun _ => .success [entry_t, entry_t]

/-! ## Helper lemmas -/

theorem string_join_cons (a : String) (l : List String) :
    String.join (a :: l) = a ++ String.join l := by
  apply String.ext
  simp [String.data_append]

theorem list_set_append_length {α : Type} (l₁ l₂ : List α) (a v : α) :
    (l₁ ++ a :: l₂).set l₁.length v = l₁ ++ v :: l₂ := by
  induction l₁ with
  | nil => rfl
  | cons x xs ih => simp [List.set, ih]

theorem getLast?_cons_getD {α : Type} (a : α) (l : List α) (d : α) :
    ((a :: l).getLast?).getD d = (l.getLast?).getD a := by
  cases l with
  | nil => rfl
  | cons b t => rw [List.getLast?_cons_cons]; simp [List.getLast?_cons]

/-! ## Claims C7 and C10 — `_parse_arguments` -/

/-- C7: `_parse_arguments` uses a map unchanged; on a string it attempts a
JSON decode and on decode failure wraps the raw string as
`{value: <raw string>}`; any other input (absent or of another type)
yields the empty map. -/
theorem claim_C7_parse_arguments (loads : String → Option PyVal) :
    (∀ entries, parse_arguments loads (.dict entries) = .dict entries)
    ∧ (∀ s, loads s = Option.none →
        parse_arguments loads (.str s) = .dict [("value", .str s)])
    ∧ parse_arguments loads .none = .dict []
    ∧ (∀ b, parse_arguments loads (.bool b) = .dict [])
    ∧ (∀ n, parse_arguments loads (.int n) = .dict [])
    ∧ (∀ items, parse_arguments loads (.list items) = .dict []) := by
  refine ⟨fun _ => rfl, fun s h => ?_, rfl, fun _ => rfl, fun _ => rfl, fun _ => rfl⟩
  simp [parse_arguments, h]

/-- C7 witness: the spec's own examples, evaluated. -/
theorem claim_C7_parse_arguments_witness :
    parse_arguments loads_fail (.str "plain") = .dict [("value", .str "plain")]
    ∧ parse_arguments loads_fail (.dict [("a", .int 1)]) = .dict [("a", .int 1)]
    ∧ parse_arguments loads_fail .none = .dict [] :=
  ⟨(claim_C7_parse_arguments loads_fail).2.1 "plain" rfl,
   (claim_C7_parse_arguments loads_fail).1 [("a", .int 1)],
   (claim_C7_parse_arguments loads_fail).2.2.1⟩

/-- C10 (implicit): a string that decodes to any JSON value — in
particular a non-object such as `5` or `[1,2]` — is returned exactly as
decoded, neither wrapped as `{value: ...}` nor replaced by an empty map. -/
theorem claim_C10_decoded_value_passthrough (loads : String → Option PyVal)
    (s : String) (v : PyVal) (h : loads s = Option.some v) :
    parse_arguments loads (.str s) = v := by
  simp [parse_arguments, h]

/-- C10 witness: `'5'` comes back as the integer `5` and `'[1,2]'` as the
list `[1, 2]`; neither equals the wrapped or empty map. -/
theorem claim_C10_decoded_value_passthrough_witness :
    parse_arguments loads_docs (.str "5") = .int 5
    ∧ parse_arguments loads_docs (.str "[1,2]") = .list [.int 1, .int 2]
    ∧ PyVal.int 5 ≠ .dict [("value", .str "5")]
    ∧ PyVal.int 5 ≠ .dict [] :=
  ⟨claim_C10_decoded_value_passthrough loads_docs "5" (.int 5) rfl,
   claim_C10_decoded_value_passthrough loads_docs "[1,2]" (.list [.int 1, .int 2]) rfl,
   fun h => PyVal.noConfusion h, fun h => PyVal.noConfusion h⟩

/-! ## Claim C8 — `AppSettings.think_argument` -/

/-- C8 counterexample: the claim maps any other non-empty string "to itself
verbatim", but the code returns the normalized (stripped, lowercased)
string: `"Banana"` resolves to `"banana"`, not to `"Banana"`. -/
theorem claim_C8_counterexample :
    ({ thinking_level := .str "Banana" } : AppSettings).think_argument = .str "banana"
    ∧ StrBoolNone.str "banana" ≠ .str "Banana" := by
  constructor
  · decide
  · decide

/-- C8 amended: with `n` the normalized value (whitespace-stripped and
lowercased), `None` and strings with `n` empty or in
`{none, off, disabled}` resolve to omission; strings with
`n ∈ {low, medium, high}` resolve to `n`; strings with
`n ∈ {true, yes, on}` resolve to boolean `true`; booleans pass through;
and any other string resolves to `n` — the normalized form, not the
verbatim input. -/
theorem claim_C8_think_argument_normalization (s : AppSettings) :
    (s.thinking_level = .none → s.think_argument = .none)
    ∧ (∀ b, s.thinking_level = .bool b → s.think_argument = .bool b)
    ∧ (∀ v, s.thinking_level = .str v →
        (py_lower (py_strip v) = "" ∨ py_lower (py_strip v) ∈ ["none", "off", "disabled"] →
          s.think_argument = .none)
        ∧ (py_lower (py_strip v) ∈ ["low", "medium", "high"] →
          s.think_argument = .str (py_lower (py_strip v)))
        ∧ (py_lower (py_strip v) ∈ ["true", "yes", "on"] →
          s.think_argument = .bool true)
        ∧ (py_lower (py_strip v) ≠ "" →
          py_lower (py_strip v) ∉ ["none", "off", "disabled"] →
          py_lower (py_strip v) ∉ ["low", "medium", "high"] →
          py_lower (py_strip v) ∉ ["true", "yes", "on"] →
          s.think_argument = .str (py_lower (py_strip v)))) := by
  refine ⟨fun h => ?_, fun b h => ?_, fun v h => ?_⟩
  · simp [AppSettings.think_argument, h]
  · simp [AppSettings.think_argument, h]
  · refine ⟨fun h1 => ?_, fun h2 => ?_, fun h3 => ?_, fun hne h1 h2 h3 => ?_⟩
    · simp only [AppSettings.think_argument, h]
      rw [if_pos h1]
    · simp only [AppSettings.think_argument, h]
      simp only [List.mem_cons, List.mem_singleton, List.not_mem_nil, or_false] at h2
      rcases h2 with h2 | h2 | h2 <;> rw [h2] <;> decide
    · simp only [AppSettings.think_argument, h]
      simp only [List.mem_cons, List.mem_singleton, List.not_mem_nil, or_false] at h3
      rcases h3 with h3 | h3 | h3 <;> rw [h3] <;> decide
    · simp only [AppSettings.think_argument, h]
      rw [if_neg (not_or.mpr ⟨hne, h1⟩), if_neg h2, if_neg h3]

/-- C8 witness: the spec's example table, evaluated through the amended
theorem. -/
theorem claim_C8_think_argument_normalization_witness :
    ({ thinking_level := .none } : AppSettings).think_argument = .none
    ∧ ({ thinking_level := .str "off" } : AppSettings).think_argument = .none
    ∧ ({ thinking_level := .str "high" } : AppSettings).think_argument = .str "high"
    ∧ ({ thinking_level := .bool true } : AppSettings).think_argument = .bool true
    ∧ ({ thinking_level := .str "banana" } : AppSettings).think_argument = .str "banana" :=
  ⟨(claim_C8_think_argument_normalization _).1 rfl,
   ((claim_C8_think_argument_normalization _).2.2 "off" rfl).1 (by decide),
   ((claim_C8_think_argument_normalization _).2.2 "high" rfl).2.1 (by decide),
   (claim_C8_think_argument_normalization _).2.1 true rfl,
   ((claim_C8_think_argument_normalization _).2.2 "banana" rfl).2.2.2
     (by decide) (by decide) (by decide) (by decide)⟩

/-! ## Claims C5 and C9 — tool discovery -/

theorem refresh_tool_bindings_fst (world : MCPServer → FetchOutcome)
    (servers : List MCPServer) :
    (refresh_tool_bindings world servers).1
      = (servers.filter (fun s => s.enabled)).flatMap (fun s =>
          match world s with
          | .success manifest => manifest.map (make_binding s)
          | .failure _ => []) := by
  induction servers with
  | nil => rfl
  | cons server rest ih =>
    cases he : server.enabled with
    | false => simp [refresh_tool_bindings, he, List.filter_cons, ih]
    | true =>
      cases hw : world server with
      | success manifest =>
        simp [refresh_tool_bindings, he, fetch_server_tools, hw, List.filter_cons, ih]
      | failure cause =>
        simp [refresh_tool_bindings, he, fetch_server_tools, hw, List.filter_cons, ih]

theorem refresh_tool_bindings_snd (world : MCPServer → FetchOutcome)
    (servers : List MCPServer) :
    (refresh_tool_bindings world servers).2
      = (servers.filter (fun s => s.enabled)).filterMap (fun s =>
          match world s with
          | .failure cause =>
            Option.some (s.name ++ ": unable to fetch tools (" ++ cause ++ ")")
          | .success _ => Option.none) := by
  induction servers with
  | nil => rfl
  | cons server rest ih =>
    cases he : server.enabled with
    | false => simp [refresh_tool_bindings, he, List.filter_cons, ih]
    | true =>
      cases hw : world server with
      | success manifest =>
        simp [refresh_tool_bindings, he, fetch_server_tools, hw, List.filter_cons,
          List.filterMap_cons, ih]
      | failure cause =>
        simp [refresh_tool_bindings, he, fetch_server_tools, hw, List.filter_cons,
          List.filterMap_cons, ih]

/-- C5: discovery yields one binding per manifest entry of each enabled
server whose fetch succeeded, and one error string
`"{server}: unable to fetch tools ({cause})"` per enabled server whose
fetch failed; a failure never suppresses the other servers' results, and
disabled servers contribute neither bindings nor errors. -/
theorem claim_C5_discovery_isolation (world : MCPServer → FetchOutcome)
    (servers : List MCPServer) :
    (refresh_tool_bindings world servers).1
      = (servers.filter (fun s => s.enabled)).flatMap (fun s =>
          match world s with
          | .success manifest => manifest.map (make_binding s)
          | .failure _ => [])
    ∧ (refresh_tool_bindings world servers).2
      = (servers.filter (fun s => s.enabled)).filterMap (fun s =>
          match world s with
          | .failure cause =>
            Option.some (s.name ++ ": unable to fetch tools (" ++ cause ++ ")")
          | .success _ => Option.none) :=
  ⟨refresh_tool_bindings_fst world servers, refresh_tool_bindings_snd world servers⟩

/-- C9 counterexample: a server whose manifest lists the same tool name
twice produces two bindings both named `"s-t"`, so the binding names of a
discovery result are not pairwise distinct. -/
theorem claim_C9_counterexample :
    ¬ (((refresh_tool_bindings world_dup [server_s]).1.map
        (fun b => b.name)).Nodup) := by
  decide

/-- C9 amended: every binding of a discovery result carries the name
synthesized as `"{server}-{tool}"` from its server and manifest entry, but
the names need not be pairwise distinct — duplicated manifest entries (or
colliding concatenations across servers) yield duplicate names. -/
theorem claim_C9_binding_name_synthesis (world : MCPServer → FetchOutcome)
    (servers : List MCPServer) (b : ToolBinding)
    (hb : b ∈ (refresh_tool_bindings world servers).1) :
    b.name = b.server_name ++ "-" ++ b.display_name := by
  rw [refresh_tool_bindings_fst] at hb
  rcases List.mem_flatMap.mp hb with ⟨s, _, hmem⟩
  revert hmem
  cases world s with
  | success manifest =>
    intro hmem
    rcases List.mem_map.mp hmem with ⟨e, _, rfl⟩
    rfl
  | failure cause => intro hmem; cases hmem

/-- C9 witness: the synthesized-name equation evaluated on the first
binding of the duplicated discovery result. -/
theorem claim_C9_binding_name_synthesis_witness :
    (make_binding server_s entry_t).name
      = (make_binding server_s entry_t).server_name ++ "-"
        ++ (make_binding server_s entry_t).display_name :=
  claim_C9_binding_name_synthesis world_dup [server_s] (make_binding server_s entry_t)
    (show make_binding server_s entry_t
        ∈ make_binding server_s entry_t :: [make_binding server_s entry_t] from
      List.mem_cons_self _ _)

/-! ## Claim C4 — streamed-delta aggregation -/

theorem aggregate_foldl_content (show_thoughts : Bool) (events : List ChatMessage) :
    ∀ acc, ((events.foldl (aggregate_step show_thoughts) acc)).content
      = acc.content ++ String.join (events.map (fun e => e.content)) := by
  induction events with
  | nil => intro acc; simp [String.join]
  | cons e rest ih =>
    intro acc
    rw [List.foldl_cons, ih, List.map_cons, string_join_cons]
    by_cases hc : e.content = ""
    · simp [aggregate_step, hc, String.empty_append]
    · simp [aggregate_step, hc, String.append_assoc]

theorem aggregate_foldl_thinking_true (events : List ChatMessage) :
    ∀ acc, ((events.foldl (aggregate_step true) acc)).thinking
      = acc.thinking ++ String.join (events.map (fun e => e.thinking)) := by
  induction events with
  | nil => intro acc; simp [String.join]
  | cons e rest ih =>
    intro acc
    rw [List.foldl_cons, ih, List.map_cons, string_join_cons]
    by_cases ht : e.thinking = ""
    · simp [aggregate_step, ht, String.empty_append]
    · simp [aggregate_step, ht, String.append_assoc]

theorem aggregate_foldl_thinking_false (events : List ChatMessage) :
    ∀ acc, ((events.foldl (aggregate_step false) acc)).thinking = acc.thinking := by
  induction events with
  | nil => intro acc; rfl
  | cons e rest ih => intro acc; rw [List.foldl_cons, ih]; simp [aggregate_step]

theorem aggregate_foldl_tool_calls (show_thoughts : Bool) (events : List ChatMessage) :
    ∀ acc, ((events.foldl (aggregate_step show_thoughts) acc)).tool_calls
      = (((events.map (fun e => e.tool_calls)).filter
          (fun tc => !tc.isEmpty)).getLast?).getD acc.tool_calls := by
  induction events with
  | nil => intro acc; rfl
  | cons e rest ih =>
    intro acc
    rw [List.foldl_cons, ih, List.map_cons, List.filter_cons]
    cases hne : e.tool_calls.isEmpty with
    | true => simp [aggregate_step, hne]
    | false => simp [aggregate_step, hne, getLast?_cons_getD]

/-- C4 counterexample: with `show_thoughts` disabled, a thinking fragment
is dropped instead of concatenated — the aggregated `thinking` of the
single-event stream `[{thinking: "T"}]` is empty, not `"T"`. -/
theorem claim_C4_counterexample :
    (aggregate_stream false [{ thinking := "T" }]).thinking
      ≠ String.join ([({ thinking := "T" } : ChatMessage)].map (fun e => e.thinking)) := by
  decide

/-- C4 amended: the aggregated assistant message concatenates all `content`
fragments in arrival order; it concatenates the `thinking` fragments only
when `show_thoughts` is enabled (otherwise its thinking stays empty); and
its `tool_calls` is the list of the last event whose `tool_calls` was
non-empty (earlier lists are overwritten, not merged). -/
theorem claim_C4_stream_aggregation (show_thoughts : Bool) (events : List ChatMessage) :
    (aggregate_stream show_thoughts events).content
      = String.join (events.map (fun e => e.content))
    ∧ (aggregate_stream show_thoughts events).thinking
      = (if show_thoughts then String.join (events.map (fun e => e.thinking)) else "")
    ∧ (aggregate_stream show_thoughts events).tool_calls
      = (((events.map (fun e => e.tool_calls)).filter
          (fun tc => !tc.isEmpty)).getLast?).getD [] := by
  refine ⟨?_, ?_, ?_⟩
  · rw [aggregate_stream, aggregate_foldl_content]
    simp [String.empty_append]
  · cases show_thoughts with
    | true => rw [aggregate_stream, aggregate_foldl_thinking_true]; simp [String.empty_append]
    | false => rw [aggregate_stream, aggregate_foldl_thinking_false]; rfl
  · rw [aggregate_stream, aggregate_foldl_tool_calls]

/-! ## Handler and turn-loop lemmas -/

theorem handle_tool_calls_messages (env : ToolEnv) (calls : List ToolCall) :
    ∀ st, (handle_tool_calls env calls st).messages
      = st.messages ++ calls.map (tool_message_for env) := by
  induction calls with
  | nil => intro st; simp [handle_tool_calls]
  | cons call rest ih =>
    intro st
    cases hl : env.lookup call.function_name with
    | none =>
      simp only [handle_tool_calls, hl]
      rw [ih]
      simp [tool_message_for, hl, List.append_assoc]
    | some binding =>
      cases hc : call_tool env.transport binding (parse_arguments env.loads call.arguments) with
      | ok result =>
        simp only [handle_tool_calls, hl, hc]
        rw [ih]
        simp [tool_message_for, hl, hc, List.append_assoc]
      | error exc =>
        simp only [handle_tool_calls, hl, hc]
        rw [ih]
        simp [tool_message_for, hl, hc, List.append_assoc]

theorem dispatch_result_none_status (settings : AppSettings) (turn : ModelTurn)
    (h : (dispatch_result settings turn).1 = Option.none) :
    (dispatch_result settings turn).2 = STATUS_ERROR := by
  by_cases hs : settings.enable_streaming
  · rw [dispatch_result, if_pos hs] at h ⊢
    cases he : turn.stream_error with
    | some e => simp [consume_stream, he]
    | none => simp [consume_stream, he] at h
  · rw [dispatch_result, if_neg hs] at h ⊢
    cases hb : turn.blocking with
    | error e => simp [run_completion, hb]
    | ok msg => rw [hb] at h; simp [run_completion] at h

theorem run_turn_loop_dispatches_le (settings : AppSettings) (env : ToolEnv)
    (oracle : Nat → ModelTurn) (fuel : Nat) :
    ∀ st, (run_turn_loop settings env oracle fuel st).dispatches ≤ st.dispatches + fuel := by
  induction fuel with
  | zero => intro st; simp [run_turn_loop]
  | succ fuel ih =>
    intro st
    rw [run_turn_loop]
    cases hd : (dispatch_result settings (oracle st.dispatches)).1 with
    | none => simp [hd]
    | some msg =>
      cases hte : msg.tool_calls.isEmpty with
      | true => simp [hd, hte]
      | false =>
        simp only [hd, hte]
        refine le_trans (ih _) ?_
        simp
        omega

theorem run_turn_loop_dispatches_ge (settings : AppSettings) (env : ToolEnv)
    (oracle : Nat → ModelTurn) (fuel : Nat) :
    ∀ st, st.dispatches ≤ (run_turn_loop settings env oracle fuel st).dispatches := by
  induction fuel with
  | zero => intro st; simp [run_turn_loop]
  | succ fuel ih =>
    intro st
    rw [run_turn_loop]
    cases hd : (dispatch_result settings (oracle st.dispatches)).1 with
    | none => simp [hd]
    | some msg =>
      cases hte : msg.tool_calls.isEmpty with
      | true => simp [hd, hte]
      | false =>
        simp only [hd, hte]
        refine le_trans ?_ (ih _)
        simp

theorem run_turn_loop_dispatches_ge_one (settings : AppSettings) (env : ToolEnv)
    (oracle : Nat → ModelTurn) (fuel : Nat) :
    ∀ st, st.dispatches + 1 ≤ (run_turn_loop settings env oracle (fuel + 1) st).dispatches := by
  intro st
  rw [run_turn_loop]
  cases hd : (dispatch_result settings (oracle st.dispatches)).1 with
  | none => simp [hd]
  | some msg =>
    cases hte : msg.tool_calls.isEmpty with
    | true => simp [hd, hte]
    | false =>
      simp only [hd, hte]
      refine le_trans ?_ (run_turn_loop_dispatches_ge settings env oracle fuel _)
      simp

theorem run_turn_loop_dispatches_eq_of_tools (settings : AppSettings) (env : ToolEnv)
    (oracle : Nat → ModelTurn)
    (h : ∀ i, ∃ msg, (dispatch_result settings (oracle i)).1 = Option.some msg
      ∧ msg.tool_calls ≠ []) (fuel : Nat) :
    ∀ st, (run_turn_loop settings env oracle fuel st).dispatches = st.dispatches + fuel := by
  induction fuel with
  | zero => intro st; simp [run_turn_loop]
  | succ fuel ih =>
    intro st
    obtain ⟨msg, hd, ht⟩ := h st.dispatches
    have hte : msg.tool_calls.isEmpty = false := by
      cases hmt : msg.tool_calls with
      | nil => exact absurd hmt ht
      | cons a l => rfl
    rw [run_turn_loop]
    simp only [hd, hte, Bool.false_eq_true, if_false]
    rw [ih]
    show st.dispatches + 1 + fuel = st.dispatches + (fuel + 1)
    omega

theorem handled_set_messages (env : ToolEnv) (pre : List Message) (assistant : Message)
    (calls : List ToolCall) (patched : Message) :
    ((handle_tool_calls env calls
        { messages := pre ++ [assistant], status := STATUS_PROCESSING }).messages.set
      pre.length patched)
      = pre ++ patched :: calls.map (tool_message_for env) := by
  rw [handle_tool_calls_messages, List.append_assoc, List.singleton_append]
  exact list_set_append_length _ _ _ _

theorem run_turn_loop_messages_extend_from (settings : AppSettings) (env : ToolEnv)
    (oracle : Nat → ModelTurn) (fuel : Nat) :
    ∀ st pre, (∃ mid, st.messages = pre ++ mid) →
      ∃ tail, (run_turn_loop settings env oracle fuel st).messages = pre ++ tail := by
  induction fuel with
  | zero => intro st pre h; exact h
  | succ fuel ih =>
    intro st pre h
    obtain ⟨mid, hmid⟩ := h
    rw [run_turn_loop]
    cases hd : (dispatch_result settings (oracle st.dispatches)).1 with
    | none => exact ⟨mid, hmid⟩
    | some msg =>
      cases hte : msg.tool_calls.isEmpty with
      | true =>
        exact ⟨mid ++
          [{ role := Role.assistant, content := msg.content, thinking := msg.thinking
             status := (dispatch_result settings (oracle st.dispatches)).2
             tool_calls := msg.tool_calls }], by simp [hte, hmid]⟩
      | false =>
        simp only [hte, Bool.false_eq_true, if_false]
        exact ih _ pre ⟨mid ++ _, by rw [handled_set_messages, hmid, List.append_assoc]⟩

theorem run_turn_loop_tools_step (settings : AppSettings) (env : ToolEnv)
    (oracle : Nat → ModelTurn) (fuel : Nat) (st : RunState) (msg : ChatMessage)
    (dstatus : String)
    (hd : dispatch_result settings (oracle st.dispatches) = (Option.some msg, dstatus))
    (ht : msg.tool_calls ≠ []) :
    run_turn_loop settings env oracle (fuel + 1) st
      = run_turn_loop settings env oracle fuel
          { messages := st.messages ++
              ({ role := Role.assistant, content := msg.content, thinking := msg.thinking
                 status := (handle_tool_calls env msg.tool_calls
                   { messages := st.messages ++
                       [{ role := Role.assistant, content := msg.content
                          thinking := msg.thinking, status := dstatus
                          tool_calls := msg.tool_calls }]
                     status := STATUS_PROCESSING }).status
                 tool_calls := msg.tool_calls }
                :: msg.tool_calls.map (tool_message_for env))
            status := (handle_tool_calls env msg.tool_calls
              { messages := st.messages ++
                  [{ role := Role.assistant, content := msg.content
                     thinking := msg.thinking, status := dstatus
                     tool_calls := msg.tool_calls }]
                status := STATUS_PROCESSING }).status
            dispatches := st.dispatches + 1 } := by
  have hte : msg.tool_calls.isEmpty = false := by
    cases hmt : msg.tool_calls with
    | nil => exact absurd hmt ht
    | cons a l => rfl
  have h1 : (dispatch_result settings (oracle st.dispatches)).1 = Option.some msg := by
    rw [hd]
  have h2 : (dispatch_result settings (oracle st.dispatches)).2 = dstatus := by
    rw [hd]
  rw [run_turn_loop]
  simp only [h1, h2, hte, Bool.false_eq_true, if_false]
  rw [handled_set_messages]

/-! ## Claim C1 — iteration bound -/

/-- C1: `_run_assistant_turn` performs at most `max_iterations = 3` model
round trips per user turn; and when every dispatch returns a response
carrying tool calls, it performs exactly 3 dispatches and then stops
without a further model call. -/
theorem claim_C1_round_trip_bound (settings : AppSettings) (env : ToolEnv)
    (oracle : Nat → ModelTurn) (st : RunState) :
    (run_assistant_turn settings env oracle st).dispatches ≤ st.dispatches + 3
    ∧ ((∀ i, ∃ msg, (dispatch_result settings (oracle i)).1 = Option.some msg
          ∧ msg.tool_calls ≠ []) →
        (run_assistant_turn settings env oracle st).dispatches = st.dispatches + 3) :=
  ⟨run_turn_loop_dispatches_le settings env oracle max_iterations st,
   fun h => run_turn_loop_dispatches_eq_of_tools settings env oracle h max_iterations st⟩

/-- C1 witness: a backend that requests tool calls on every dispatch is
stopped after exactly 3 round trips. -/
theorem claim_C1_round_trip_bound_witness :
    (run_assistant_turn settings_blocking env_calc oracle_tools st_user).dispatches
      ≤ st_user.dispatches + 3
    ∧ (run_assistant_turn settings_blocking env_calc oracle_tools st_user).dispatches
      = st_user.dispatches + 3 :=
  ⟨(claim_C1_round_trip_bound settings_blocking env_calc oracle_tools st_user).1,
   (claim_C1_round_trip_bound settings_blocking env_calc oracle_tools st_user).2
     (fun _ => ⟨{ content := "x", tool_calls := [call_nope] }, rfl,
       List.cons_ne_nil _ _⟩)⟩

/-! ## Claim C3 — `ModelError` aborts the turn -/

/-- C3: when the model dispatch of iteration 1 fails (an `OllamaError` in
either the streaming or the blocking path, i.e. the dispatch yields no
response), the turn ends with the message log unchanged — no assistant and
no tool message beyond what was already there — and the request status is
the error state. -/
theorem claim_C3_model_error_aborts_turn (settings : AppSettings) (env : ToolEnv)
    (oracle : Nat → ModelTurn) (st : RunState)
    (h : (dispatch_result settings (oracle st.dispatches)).1 = Option.none) :
    run_assistant_turn settings env oracle st
      = { messages := st.messages, status := STATUS_ERROR
          dispatches := st.dispatches + 1 } := by
  have h2 := dispatch_result_none_status settings (oracle st.dispatches) h
  show run_turn_loop settings env oracle 3 st = _
  rw [show (3 : Nat) = 2 + 1 from rfl, run_turn_loop]
  simp only [h, h2]

/-- C3 witness: a stream that raises after one delta leaves the
conversation with only the user message and status `Error`. -/
theorem claim_C3_model_error_aborts_turn_witness :
    run_assistant_turn {} env_calc oracle_stream_err st_user
      = { messages := [msg_user], status := STATUS_ERROR, dispatches := 1 } :=
  claim_C3_model_error_aborts_turn {} env_calc oracle_stream_err st_user rfl

/-! ## Claim C2 — tool-layer failures degrade, never abort -/

/-- C2: an unresolved binding name appends a tool message carrying the
descriptive unavailability error and sets status `Error`, then processing
continues with the remaining calls; a resolved binding whose invocation
fails appends a tool message with the formatted failure string and
continues; every call of the list yields exactly one tool message, and a
turn whose first dispatch requests tool calls always reaches a second
model dispatch, whatever the tool layer did. -/
theorem claim_C2_tool_failures_degrade (env : ToolEnv) :
    (∀ call rest st, env.lookup call.function_name = Option.none →
      handle_tool_calls env (call :: rest) st
        = handle_tool_calls env rest
            { messages := st.messages ++
                [{ role := .tool, name := call.function_name
                   content := tool_unavailable_text call.function_name }]
              status := STATUS_ERROR })
    ∧ (∀ call rest st binding exc, env.lookup call.function_name = Option.some binding →
        call_tool env.transport binding (parse_arguments env.loads call.arguments)
          = .error exc →
        handle_tool_calls env (call :: rest) st
          = handle_tool_calls env rest
              { messages := st.messages ++
                  [{ role := .tool, name := binding.name
                     content := "Tool invocation failed: " ++ exc }]
                status := STATUS_ERROR })
    ∧ (∀ calls st, (handle_tool_calls env calls st).messages
        = st.messages ++ calls.map (tool_message_for env))
    ∧ (∀ settings oracle st msg,
        (dispatch_result settings (oracle st.dispatches)).1 = Option.some msg →
        msg.tool_calls ≠ [] →
        st.dispatches + 2 ≤ (run_assistant_turn settings env oracle st).dispatches) := by
  refine ⟨fun call rest st hl => ?_, fun call rest st binding exc hl hc => ?_,
    handle_tool_calls_messages env, fun settings oracle st msg h ht => ?_⟩
  · simp only [handle_tool_calls, hl]
  · simp only [handle_tool_calls, hl, hc]
  · have hte : msg.tool_calls.isEmpty = false := by
      cases hmt : msg.tool_calls with
      | nil => exact absurd hmt ht
      | cons a l => rfl
    show st.dispatches + 2 ≤ (run_turn_loop settings env oracle 3 st).dispatches
    rw [show (3 : Nat) = 2 + 1 from rfl, run_turn_loop]
    simp only [h, hte, Bool.false_eq_true, if_false]
    refine le_trans ?_ (run_turn_loop_dispatches_ge_one settings env oracle 1 _)
    show st.dispatches + 2 ≤ st.dispatches + 1 + 1
    omega

/-- C2 witness: the unresolved-binding step, the failed-invocation step,
and the guaranteed second dispatch, evaluated on concrete fixtures. -/
theorem claim_C2_tool_failures_degrade_witness :
    handle_tool_calls env_calc [call_nope] hs_empty
      = { messages := [{ role := .tool, name := "nope",
                         content := tool_unavailable_text "nope" }],
          status := STATUS_ERROR }
    ∧ handle_tool_calls env_fail [call_nope] hs_empty
      = { messages := [{ role := .tool, name := "calc-add",
                         content := "Tool invocation failed: calc-add failed: HTTP 500" }],
          status := STATUS_ERROR }
    ∧ st_user.dispatches + 2
      ≤ (run_assistant_turn settings_blocking env_calc oracle_tools st_user).dispatches :=
  ⟨(claim_C2_tool_failures_degrade env_calc).1 call_nope [] hs_empty rfl,
   (claim_C2_tool_failures_degrade env_fail).2.1 call_nope [] hs_empty binding_add
     "calc-add failed: HTTP 500" rfl rfl,
   (claim_C2_tool_failures_degrade env_calc).2.2.2 settings_blocking oracle_tools st_user
     { content := "x", tool_calls := [call_nope] } rfl (List.cons_ne_nil _ _)⟩

/-! ## Claim C6 — ordering and append-only log -/

/-- C6: the calls of an assistant message are processed strictly in list
order, each producing exactly one tool message (first conjunct); the
session log only ever grows during a turn (second conjunct); and an
iteration whose dispatch returns tool calls hands the loop a log already
extended — in order — with the assistant message followed by that
iteration's tool messages before the next model dispatch can happen
(third conjunct). -/
theorem claim_C6_sequential_ordering (env : ToolEnv) :
    (∀ calls st, (handle_tool_calls env calls st).messages
        = st.messages ++ calls.map (tool_message_for env))
    ∧ (∀ (settings : AppSettings) (oracle : Nat → ModelTurn) (fuel : Nat)
        (st : RunState), ∃ tail,
        (run_turn_loop settings env oracle fuel st).messages = st.messages ++ tail)
    ∧ (∀ (settings : AppSettings) (oracle : Nat → ModelTurn) (fuel : Nat)
        (st : RunState) (msg : ChatMessage) (dstatus : String),
        dispatch_result settings (oracle st.dispatches) = (Option.some msg, dstatus) →
        msg.tool_calls ≠ [] →
        run_turn_loop settings env oracle (fuel + 1) st
          = run_turn_loop settings env oracle fuel
              { messages := st.messages ++
                  ({ role := Role.assistant, content := msg.content,
                     thinking := msg.thinking,
                     status := (handle_tool_calls env msg.tool_calls
                       { messages := st.messages ++
                           [{ role := Role.assistant, content := msg.content,
                              thinking := msg.thinking, status := dstatus,
                              tool_calls := msg.tool_calls }],
                         status := STATUS_PROCESSING }).status,
                     tool_calls := msg.tool_calls }
                    :: msg.tool_calls.map (tool_message_for env)),
                status := (handle_tool_calls env msg.tool_calls
                  { messages := st.messages ++
                      [{ role := Role.assistant, content := msg.content,
                         thinking := msg.thinking, status := dstatus,
                         tool_calls := msg.tool_calls }],
                    status := STATUS_PROCESSING }).status,
                dispatches := st.dispatches + 1 }) :=
  ⟨handle_tool_calls_messages env,
   fun settings oracle fuel st =>
     run_turn_loop_messages_extend_from settings env oracle fuel st st.messages
       ⟨[], by simp⟩,
   fun settings oracle fuel st msg dstatus hd ht =>
     run_turn_loop_tools_step settings env oracle fuel st msg dstatus hd ht⟩

/-- C6 witness: the single-iteration equation evaluated on the concrete
turn whose model response requests the unavailable tool `nope`: before the
second dispatch the log already holds the assistant message followed by
its tool message. -/
theorem claim_C6_sequential_ordering_witness :
    run_turn_loop settings_blocking env_calc oracle_tools 3 st_user
      = run_turn_loop settings_blocking env_calc oracle_tools 2
          { messages := [msg_user,
              { role := Role.assistant, content := "x", status := STATUS_ERROR,
                tool_calls := [call_nope] },
              { role := Role.tool, name := "nope",
                content := tool_unavailable_text "nope" }],
            status := STATUS_ERROR,
            dispatches := 1 } :=
  (claim_C6_sequential_ordering env_calc).2.2 settings_blocking oracle_tools 2 st_user
    { content := "x", tool_calls := [call_nope] } STATUS_PROCESSING rfl
    (List.cons_ne_nil _ _)
